import Mathlib

/-!
# BLE sensor peripheral: weight variant (`Track`) and analog variant (`ThermometerDemo`)

A shallow embedding of the two firmware sketches `src/src/main.cpp` (class `Track`, an
Hx711 load cell published through a Health Thermometer service) and
`src/project/src/main.cpp` (class `ThermometerDemo`, an analog tension input).

The application objects are plain records.  Everything the application does to its
collaborators (BLE stack, advertising data builder, event queue, console, pins) is
appended, oldest first, to a call trace kept in the `World`; whatever a collaborator
returns to the application is an argument of the embedded function.
-/

namespace TrackSafe

/-! ## Collaborators -/

/-- The error code type of the BLE API.  The source tests it both as `error != BLE_ERROR_NONE`
and as `if (error)`, so success is the value zero. -/
abbrev ble_error_t := Nat

/-- The success code of the BLE API. -/
def BLE_ERROR_NONE : ble_error_t := 0

/-- Handle naming an advertising set. -/
abbrev advertising_handle_t := Nat

/-- The handle of the legacy advertising set (`ble::LEGACY_ADVERTISING_HANDLE`). -/
def LEGACY_ADVERTISING_HANDLE : advertising_handle_t := 0

/-- The member functions the applications post on the event queue. -/
inductive Callback where
  | blink
  | update_sensor_value
deriving DecidableEq

/-- One periodic registration held by the event queue. -/
structure PeriodicTask where
  id : Int
  period_ms : Nat
  callback : Callback
deriving DecidableEq

/-- Modelled from the spec: the `events::EventQueue` of the mbed library, which is not part
of the sources.  The queue holds the periodic registrations; `call_every` registers a task
and returns its handle, `cancel` removes the registration carrying a handle and is a no-op
for a handle that names no registration.  Handles are issued from a counter, so two live
registrations never share one.  The spec describes no failure of a registration, and none is
modelled: the storage bound given to the constructor (`16 * EVENTS_EVENT_SIZE`) is left out. -/
structure EventQueue where
  next_id : Int
  tasks : List PeriodicTask
deriving DecidableEq

/-- The queue as constructed: nothing registered, first handle 1 (0 is never issued). -/
def EventQueue.empty : EventQueue :=
  { next_id := 1, tasks := [] }

/-- Registration of a periodic task: returns the handle and the new queue. -/
def EventQueue.call_every (q : EventQueue) (ms : Nat) (cb : Callback) : Int × EventQueue :=
  (q.next_id, { next_id := q.next_id + 1, tasks := q.tasks ++ [⟨q.next_id, ms, cb⟩] })

/-- Cancellation by handle. -/
def EventQueue.cancel (q : EventQueue) (id : Int) : EventQueue :=
  { q with tasks := q.tasks.filter (fun t => decide (t.id ≠ id)) }

/-- The registrations of a given callback that are live on the queue. -/
def EventQueue.scheduled (q : EventQueue) (cb : Callback) : List PeriodicTask :=
  q.tasks.filter (fun t => decide (t.callback = cb))

/-- A call issued by the application to one of its collaborators.  `F` is the type of the
floating-point values carried by the calls. -/
inductive Call (F : Type) where
  | print_error (error : ble_error_t) (msg : String)
  | print_mac_address
  | new_HealthThermometerService (initial : F)
  | setFlags
  | setLocalServiceList
  | setAppearance
  | setName (name : String)
  | setAdvertisingParameters (handle : advertising_handle_t) (interval_ms : Nat)
  | setAdvertisingPayload (handle : advertising_handle_t)
  | startAdvertising (handle : advertising_handle_t)
  | setEventHandler
  | ble_init
  | call_every (ms : Nat) (cb : Callback)
  | cancel (id : Int)
  | printf_value (v : F)
  | updateTemperature (v : F)
  | led1_write (b : Bool)
  | out1_write (b : Bool)
  | ain_read
  | sleep_for (ms : Nat)
deriving DecidableEq

/-- A diagnostic line: a call of `print_error`. -/
def Call.is_diagnostic {F : Type} : Call F → Bool
  | .print_error _ _ => true
  | _ => false

/-- One of the three advertising calls on the Gap. -/
def Call.is_advertising_call {F : Type} : Call F → Bool
  | .setAdvertisingParameters _ _ => true
  | .setAdvertisingPayload _ => true
  | .startAdvertising _ => true
  | _ => false

/-- Construction of the GATT service. -/
def Call.is_service_creation {F : Type} : Call F → Bool
  | .new_HealthThermometerService _ => true
  | _ => false

/-- A `setAdvertisingParameters` call. -/
def Call.is_setAdvertisingParameters {F : Type} : Call F → Bool
  | .setAdvertisingParameters _ _ => true
  | _ => false

/-- A `setAdvertisingPayload` call. -/
def Call.is_setAdvertisingPayload {F : Type} : Call F → Bool
  | .setAdvertisingPayload _ => true
  | _ => false

/-- A `startAdvertising` call. -/
def Call.is_startAdvertising {F : Type} : Call F → Bool
  | .startAdvertising _ => true
  | _ => false

/-- A cancellation on the event queue. -/
def Call.is_cancel {F : Type} : Call F → Bool
  | .cancel _ => true
  | _ => false

/-- A sample of the analog input. -/
def Call.is_ain_read {F : Type} : Call F → Bool
  | .ain_read => true
  | _ => false

/-- A blocking sleep. -/
def Call.is_sleep {F : Type} : Call F → Bool
  | .sleep_for _ => true
  | _ => false

/-- Everything outside the application object: the static event queue, the status LED and
the trace of the calls issued so far (oldest first). -/
structure World (F : Type) where
  event_queue : EventQueue
  led1 : Bool
  out1 : Bool
  trace : List (Call F)
deriving DecidableEq

/-- The world before `main` runs: the pins `led1` and `out1` are constructed with value 1
(the weight variant has no `out1`; the field is then never touched). -/
def World.boot (F : Type) : World F :=
  { event_queue := EventQueue.empty, led1 := true, out1 := true, trace := [] }

/-- Record a call at the end of the trace. -/
def World.emit {F : Type} (w : World F) (c : Call F) : World F :=
  { w with trace := w.trace ++ [c] }

/-- The calls recorded in `w2` after the point reached by `w1`. -/
def World.since {F : Type} (w1 w2 : World F) : List (Call F) :=
  w2.trace.drop w1.trace.length

/-- What the BLE stack answers to the three advertising calls. -/
structure GapResults where
  setAdvertisingParameters : ble_error_t
  setAdvertisingPayload : ble_error_t
  startAdvertising : ble_error_t
deriving DecidableEq

/-- The call `_ble.gap().setAdvertisingParameters(handle, params)`: logged, answers `res`. -/
def Gap.setAdvertisingParameters {F : Type} (res : ble_error_t) (handle : advertising_handle_t)
    (interval_ms : Nat) (w : World F) : ble_error_t × World F :=
  (res, w.emit (.setAdvertisingParameters handle interval_ms))

/-- The call `_ble.gap().setAdvertisingPayload(handle, data)`: logged, answers `res`. -/
def Gap.setAdvertisingPayload {F : Type} (res : ble_error_t) (handle : advertising_handle_t)
    (w : World F) : ble_error_t × World F :=
  (res, w.emit (.setAdvertisingPayload handle))

/-- The call `_ble.gap().startAdvertising(handle)`: logged, answers `res`. -/
def Gap.startAdvertising {F : Type} (res : ble_error_t) (handle : advertising_handle_t)
    (w : World F) : ble_error_t × World F :=
  (res, w.emit (.startAdvertising handle))

/-- The call `_event_queue.call_every(ms, this, cb)`: registers, logs, answers the handle. -/
def World.call_every {F : Type} (w : World F) (ms : Nat) (cb : Callback) : Int × World F :=
  let r := w.event_queue.call_every ms cb
  (r.1, { w with event_queue := r.2 }.emit (.call_every ms cb))

/-- The call `_event_queue.cancel(id)`: cancels and logs. -/
def World.cancel {F : Type} (w : World F) (id : Int) : World F :=
  { w with event_queue := w.event_queue.cancel id }.emit (.cancel id)

/-- The sensor location passed to the service constructor. -/
inductive SensorLocation where
  | LOCATION_EAR
deriving DecidableEq

/-- The object built by `new HealthThermometerService(ble, initial, location)`. -/
structure HealthThermometerService (F : Type) where
  initial_temperature : F
  location : SensorLocation
deriving DecidableEq

/-! ## Weight variant: `src/src/main.cpp` -/

/-- Modelled from the spec: the `Hx711` sensor object `s1` of the absent Hx711 library, with
its calibration zero point `offset` (an integer) and calibration divisor `scale`. -/
structure Hx711 where
  offset : Int
  scale : ℚ
deriving DecidableEq

/-- Modelled from the spec: `Hx711::read`, the calibration `(raw - offset) / scale` applied
to the raw sample the hardware delivers.  The quotient is exact: the rounding of the result
to a `float` is not modelled (it keeps the sign of a quotient of this size). -/
def Hx711.read (s : Hx711) (raw : Int) : ℚ :=
  ((raw - s.offset : Int) : ℚ) / s.scale

/-- Modelled from the spec: `Hx711::set_offset`. -/
def Hx711.set_offset (s : Hx711) (offset : Int) : Hx711 :=
  { s with offset := offset }

/-- Modelled from the spec: `Hx711::set_scale`. -/
def Hx711.set_scale (s : Hx711) (scale : ℚ) : Hx711 :=
  { s with scale := scale }

/-- The advertised device name of the weight variant. -/
def Track.DEVICE_NAME : String := "Trak"

/-- The data members of `class Track` that the handlers read or write.  The references
`_ble` and `_event_queue` point into the `World`; `units_raw`, `units` and `ounces` have no
initialiser and are `none` until first assigned.  A finite `float` is carried as the
rational number it denotes. -/
structure Track where
  _sensor_event_id : Int
  _current_temperature : ℚ
  _thermometer_service : Option (HealthThermometerService ℚ)
  calibration_factor : ℚ
  units_raw : Option Int
  units : Option ℚ
  ounces : Option ℚ
  offset : Int
deriving DecidableEq

/-- The constructor `Track::Track` together with the default member initialisers.  The
literals `39.6f` and `-140.35f` are taken at their decimal value. -/
def Track.new : Track :=
  { _sensor_event_id := 0
    _current_temperature := 396 / 10
    _thermometer_service := none
    calibration_factor := -14035 / 100
    units_raw := none
    units := none
    ounces := none
    offset := 0 }

/-- The conversion `(int)x` of a float to an integer: truncation toward zero. -/
def float_to_int (x : ℚ) : Int :=
  Int.tdiv x.num x.den

/-- The body `Track::start` up to (not including) `dispatch_forever`: `read_result` is what
`s1.read()` returns for the zero-load sample. -/
def Track.start (read_result : ℚ) (s : Track × Hx711 × World ℚ) : Track × Hx711 × World ℚ :=
  let t := s.1
  let s1 := s.2.1
  let w := s.2.2
  let t := { t with offset := float_to_int read_result }
  let s1 := s1.set_offset t.offset
  let s1 := s1.set_scale t.calibration_factor
  let w := w.emit .setEventHandler
  let w := w.emit .ble_init
  let w := (w.call_every 500 .blink).2
  (t, s1, w)

/-- Transcription of `Track::start_advertising`; `gap` holds the answers of the BLE stack. -/
def Track.start_advertising (gap : GapResults) (s : Track × World ℚ) : Track × World ℚ :=
  let t := s.1
  let w := s.2
  let w := w.emit .setFlags
  let w := w.emit .setAppearance
  let w := w.emit (.setName Track.DEVICE_NAME)
  let r := Gap.setAdvertisingParameters gap.setAdvertisingParameters LEGACY_ADVERTISING_HANDLE 1000 w
  let error := r.1
  let w := r.2
  if error ≠ 0 then
    (t, w.emit (.print_error error "_ble.gap().setAdvertisingParameters() failed"))
  else
    let r := Gap.setAdvertisingPayload gap.setAdvertisingPayload LEGACY_ADVERTISING_HANDLE w
    let error := r.1
    let w := r.2
    if error ≠ 0 then
      (t, w.emit (.print_error error "_ble.gap().setAdvertisingPayload() failed"))
    else
      let r := Gap.startAdvertising gap.startAdvertising LEGACY_ADVERTISING_HANDLE w
      let error := r.1
      let w := r.2
      if error ≠ 0 then
        (t, w.emit (.print_error error "_ble.gap().startAdvertising() failed"))
      else
        (t, w)

/-- Transcription of `Track::on_init_complete`; `error` is `params->error`. -/
def Track.on_init_complete (error : ble_error_t) (gap : GapResults) (s : Track × World ℚ) :
    Track × World ℚ :=
  let t := s.1
  let w := s.2
  if error ≠ BLE_ERROR_NONE then
    (t, w.emit (.print_error error "Ble initialization failed."))
  else
    let w := w.emit .print_mac_address
    let w := w.emit (.new_HealthThermometerService t._current_temperature)
    let service : HealthThermometerService ℚ := ⟨t._current_temperature, SensorLocation.LOCATION_EAR⟩
    let t := { t with _thermometer_service := some service }
    Track.start_advertising gap (t, w)

/-- Transcription of `Track::update_sensor_value`.  `readRaw_result` and `read_result` are
what `s1.readRaw()` and `s1.read()` return; the result is `none` when the service pointer
is NULL at the call through it. -/
def Track.update_sensor_value (readRaw_result : Int) (read_result : ℚ) (s : Track × World ℚ) :
    Option (Track × World ℚ) :=
  let t := s.1
  let w := s.2
  let t := { t with units_raw := some readRaw_result }
  let units := read_result
  let units := if units < 0 then 0 else units
  let t := { t with units := some units }
  let w := w.emit (.printf_value units)
  match t._thermometer_service with
  | none => none
  | some _ => some (t, w.emit (.updateTemperature units))

/-- Transcription of `Track::blink`. -/
def Track.blink (s : Track × World ℚ) : Track × World ℚ :=
  (s.1, { s.2 with led1 := !s.2.led1 }.emit (.led1_write (!s.2.led1)))

/-- Transcription of `Track::onDisconnectionComplete`; `startAdvertising_result` is what the
BLE stack answers to the restart request. -/
def Track.onDisconnectionComplete (startAdvertising_result : ble_error_t) (s : Track × World ℚ) :
    Track × World ℚ :=
  let t := s.1
  let w := s.2
  let w := w.cancel t._sensor_event_id
  let w := (Gap.startAdvertising startAdvertising_result LEGACY_ADVERTISING_HANDLE w).2
  (t, w)

/-- Transcription of `Track::onConnectionComplete`; `status` is `event.getStatus()`. -/
def Track.onConnectionComplete (status : ble_error_t) (s : Track × World ℚ) : Track × World ℚ :=
  let t := s.1
  let w := s.2
  if status = BLE_ERROR_NONE then
    let r := w.call_every 1000 .update_sensor_value
    ({ t with _sensor_event_id := r.1 }, r.2)
  else
    (t, w)

/-! ## Analog variant: `src/project/src/main.cpp` -/

/-- The floating-point operations used by the analog variant, over an arbitrary carrier `F`:
conversion of an `int`, addition, multiplication and division. -/
structure FloatOps (F : Type) where
  ofInt : Int → F
  add : F → F → F
  mul : F → F → F
  div : F → F → F

/-- An instance of the operations, used to run the analog variant on concrete inputs: exact
arithmetic on rational numbers. -/
def FloatOps.rational : FloatOps ℚ :=
  { ofInt := fun i => (i : ℚ)
    add := fun a b => a + b
    mul := fun a b => a * b
    div := fun a b => a / b }

/-- The advertised device name of the analog variant. -/
def ThermometerDemo.DEVICE_NAME : String := "TensitionSensor"

/-- The data members of `class ThermometerDemo` that the handlers read or write. -/
structure ThermometerDemo (F : Type) where
  _sensor_event_id : Int
  _current_tensition : F
  _tensitionr_service : Option (HealthThermometerService F)
deriving DecidableEq

/-- The constructor `ThermometerDemo::ThermometerDemo`. -/
def ThermometerDemo.new {F : Type} (ops : FloatOps F) : ThermometerDemo F :=
  { _sensor_event_id := 0
    _current_tensition := ops.ofInt 0
    _tensitionr_service := none }

/-- The body `ThermometerDemo::start` up to (not including) `dispatch_forever`. -/
def ThermometerDemo.start {F : Type} (s : ThermometerDemo F × World F) :
    ThermometerDemo F × World F :=
  let d := s.1
  let w := s.2
  let w := w.emit .setEventHandler
  let w := w.emit .ble_init
  let w := (w.call_every 1000 .blink).2
  (d, w)

/-- Transcription of `ThermometerDemo::start_advertising`. -/
def ThermometerDemo.start_advertising {F : Type} (gap : GapResults)
    (s : ThermometerDemo F × World F) : ThermometerDemo F × World F :=
  let d := s.1
  let w := s.2
  let w := w.emit .setFlags
  let w := w.emit .setLocalServiceList
  let w := w.emit .setAppearance
  let w := w.emit (.setName ThermometerDemo.DEVICE_NAME)
  let r := Gap.setAdvertisingParameters gap.setAdvertisingParameters LEGACY_ADVERTISING_HANDLE 1000 w
  let error := r.1
  let w := r.2
  if error ≠ 0 then
    (d, w.emit (.print_error error "_ble.gap().setAdvertisingParameters() failed"))
  else
    let r := Gap.setAdvertisingPayload gap.setAdvertisingPayload LEGACY_ADVERTISING_HANDLE w
    let error := r.1
    let w := r.2
    if error ≠ 0 then
      (d, w.emit (.print_error error "_ble.gap().setAdvertisingPayload() failed"))
    else
      let r := Gap.startAdvertising gap.startAdvertising LEGACY_ADVERTISING_HANDLE w
      let error := r.1
      let w := r.2
      if error ≠ 0 then
        (d, w.emit (.print_error error "_ble.gap().startAdvertising() failed"))
      else
        (d, w)

/-- Transcription of `ThermometerDemo::on_init_complete`. -/
def ThermometerDemo.on_init_complete {F : Type} (error : ble_error_t) (gap : GapResults)
    (s : ThermometerDemo F × World F) : ThermometerDemo F × World F :=
  let d := s.1
  let w := s.2
  if error ≠ BLE_ERROR_NONE then
    (d, w.emit (.print_error error "Ble initialization failed."))
  else
    let w := w.emit .print_mac_address
    let w := w.emit (.new_HealthThermometerService d._current_tensition)
    let service : HealthThermometerService F := ⟨d._current_tensition, SensorLocation.LOCATION_EAR⟩
    let d := { d with _tensitionr_service := some service }
    ThermometerDemo.start_advertising gap (d, w)

/-- The loop `for (int i = 0; i >= 50; i++)` of `ThermometerDemo::update_sensor_value`, entered
at index `i`.  `ain i` is the sample `ain.read()` delivers in the iteration of index `i`.
The result carries the number of iterations executed; `none` when `fuel` runs out. -/
def ThermometerDemo.averaging_loop {F : Type} (ops : FloatOps F) (ain : Int → F) :
    Nat → Int → ThermometerDemo F × World F → Option (Nat × ThermometerDemo F × World F)
  | 0, _, _ => none
  | fuel + 1, i, s =>
    if i ≥ 50 then
      let d := s.1
      let w := s.2
      let w := w.emit .ain_read
      let sample := ain i
      let next := ops.div (ops.add d._current_tensition (ops.mul sample (ops.ofInt 100))) (ops.ofInt i)
      let d := { d with _current_tensition := next }
      let w := w.emit (.sleep_for 25)
      match ThermometerDemo.averaging_loop ops ain fuel (i + 1) (d, w) with
      | none => none
      | some r => some (r.1 + 1, r.2)
    else
      some (0, s)

/-- Transcription of `ThermometerDemo::update_sensor_value`.  The names `_current_tensition1`
and `_current_tensition2` are used by the source without a declaration; their values are
arguments.  The result is `none` when the loop runs out of fuel or the service pointer is
NULL at the call through it. -/
def ThermometerDemo.update_sensor_value {F : Type} (ops : FloatOps F) (ain : Int → F)
    (_current_tensition1 _current_tensition2 : F) (fuel : Nat)
    (s : ThermometerDemo F × World F) : Option (ThermometerDemo F × World F) :=
  let d := s.1
  let w := s.2
  let w := { w with out1 := true }.emit (.out1_write true)
  match ThermometerDemo.averaging_loop ops ain fuel 0 (d, w) with
  | none => none
  | some r =>
    let d := r.2.1
    let w := r.2.2
    let w := w.emit (.printf_value d._current_tensition)
    match d._tensitionr_service with
    | none => none
    | some _ =>
      let v := ops.div (ops.add (ops.add d._current_tensition _current_tensition1)
        _current_tensition2) (ops.ofInt 3)
      let w := w.emit (.updateTemperature v)
      let w := { w with out1 := false }.emit (.out1_write false)
      some (d, w)

/-- Transcription of `ThermometerDemo::blink`. -/
def ThermometerDemo.blink {F : Type} (s : ThermometerDemo F × World F) :
    ThermometerDemo F × World F :=
  (s.1, { s.2 with led1 := !s.2.led1 }.emit (.led1_write (!s.2.led1)))

/-- Transcription of `ThermometerDemo::onDisconnectionComplete`. -/
def ThermometerDemo.onDisconnectionComplete {F : Type} (startAdvertising_result : ble_error_t)
    (s : ThermometerDemo F × World F) : ThermometerDemo F × World F :=
  let d := s.1
  let w := s.2
  let w := w.cancel d._sensor_event_id
  let w := (Gap.startAdvertising startAdvertising_result LEGACY_ADVERTISING_HANDLE w).2
  (d, w)

/-- Transcription of `ThermometerDemo::onConnectionComplete`. -/
def ThermometerDemo.onConnectionComplete {F : Type} (status : ble_error_t)
    (s : ThermometerDemo F × World F) : ThermometerDemo F × World F :=
  let d := s.1
  let w := s.2
  if status = BLE_ERROR_NONE then
    let r := w.call_every 1000 .update_sensor_value
    ({ d with _sensor_event_id := r.1 }, r.2)
  else
    (d, w)

/-! ## Event dispatch -/

/-- The value a call publishes on the characteristic, when it is an `updateTemperature`. -/
def Call.published {F : Type} : Call F → Option F
  | .updateTemperature v => some v
  | _ => none

/-- The values passed to `updateTemperature` after the point reached by `w1`, oldest first. -/
def World.published_since {F : Type} (w1 w2 : World F) : List F :=
  (World.since w1 w2).filterMap Call.published

/-- The two connection events the BLE stack delivers to the Gap event handler, each with
what the stack reports or answers during the handler. -/
inductive LinkEvent where
  | connection_complete (status : ble_error_t)
  | disconnection_complete (startAdvertising_result : ble_error_t)
deriving DecidableEq

/-- Delivery of one connection event to the `Track` handlers. -/
def Track.on_link_event (s : Track × World ℚ) : LinkEvent → Track × World ℚ
  | .connection_complete status => Track.onConnectionComplete status s
  | .disconnection_complete r => Track.onDisconnectionComplete r s

/-- Delivery of a sequence of connection events, in order. -/
def Track.run_link (s : Track × World ℚ) (evs : List LinkEvent) : Track × World ℚ :=
  evs.foldl Track.on_link_event s

/-- Delivery of one connection event to the `ThermometerDemo` handlers. -/
def ThermometerDemo.on_link_event {F : Type} (s : ThermometerDemo F × World F) :
    LinkEvent → ThermometerDemo F × World F
  | .connection_complete status => ThermometerDemo.onConnectionComplete status s
  | .disconnection_complete r => ThermometerDemo.onDisconnectionComplete r s

/-- Delivery of a sequence of connection events, in order. -/
def ThermometerDemo.run_link {F : Type} (s : ThermometerDemo F × World F)
    (evs : List LinkEvent) : ThermometerDemo F × World F :=
  evs.foldl ThermometerDemo.on_link_event s

/-- A sequence of connection events in which a successful connection-complete never arrives
while a link is up: `connected` says whether a link is up before the first event. -/
def LinkEvent.alternating : Bool → List LinkEvent → Bool
  | _, [] => true
  | connected, .connection_complete status :: es =>
    if status = BLE_ERROR_NONE then !connected && LinkEvent.alternating true es
    else LinkEvent.alternating connected es
  | _, .disconnection_complete _ :: es => LinkEvent.alternating false es

/-- What the event loop of the weight variant can dispatch: completion of the BLE
initialisation, a connection event, or the expiry of the registration with handle `id`
(with what the sensor returns should the callback read it). -/
inductive Event where
  | init_complete (error : ble_error_t) (gap : GapResults)
  | link (e : LinkEvent)
  | timer (id : Int) (readRaw_result : Int) (read_result : ℚ)
deriving DecidableEq

/-- The registration a timer expiry refers to, when it is live. -/
def EventQueue.lookup (q : EventQueue) (id : Int) : Option PeriodicTask :=
  q.tasks.find? (fun t => decide (t.id = id))

/-- One turn of `dispatch_forever` for the weight variant.  A timer expiry runs the callback
of the registration when it is live and nothing otherwise; `none` is the call through a NULL
service pointer. -/
def Track.dispatch (s : Track × World ℚ) : Event → Option (Track × World ℚ)
  | .init_complete error gap => some (Track.on_init_complete error gap s)
  | .link e => some (Track.on_link_event s e)
  | .timer id readRaw_result read_result =>
    match s.2.event_queue.lookup id with
    | none => some s
    | some task =>
      match task.callback with
      | .blink => some (Track.blink s)
      | .update_sensor_value => Track.update_sensor_value readRaw_result read_result s

/-- The event loop `dispatch_forever` of the weight variant over a finite run of events. -/
def Track.dispatch_forever (s : Track × World ℚ) : List Event → Option (Track × World ℚ)
  | [] => some s
  | e :: es =>
    match Track.dispatch s e with
    | none => none
    | some s1 => Track.dispatch_forever s1 es

/-- The event `e`, dispatched in state `s`, invokes `update_sensor_value`. -/
def Track.invokes_update (s : Track × World ℚ) : Event → Bool
  | .timer id _ _ =>
    match s.2.event_queue.lookup id with
    | some task => decide (task.callback = Callback.update_sensor_value)
    | none => false
  | _ => false

/-- Connection-complete events occur only after `on_init_complete` has run with
`BLE_ERROR_NONE`; `inited` says whether that has happened before the first event. -/
def Event.init_before_connect : Bool → List Event → Bool
  | _, [] => true
  | inited, .init_complete error _ :: es =>
    Event.init_before_connect (inited || decide (error = BLE_ERROR_NONE)) es
  | inited, .link (.connection_complete _) :: es => inited && Event.init_before_connect inited es
  | inited, _ :: es => Event.init_before_connect inited es

/-! ## Invariants of the handlers -/

/-- What the connection handlers of both variants do to the stored handle and the queue. -/
def LinkEvent.effect (s : Int × EventQueue) : LinkEvent → Int × EventQueue
  | .connection_complete status =>
    if status = BLE_ERROR_NONE then s.2.call_every 1000 .update_sensor_value else s
  | .disconnection_complete _ => (s.1, s.2.cancel s.1)

/-- Whether a link is up after an event. -/
def LinkEvent.next_connected (connected : Bool) : LinkEvent → Bool
  | .connection_complete status => if status = BLE_ERROR_NONE then true else connected
  | .disconnection_complete _ => false

/-- The invariant of the connection handlers: a registration of `update_sensor_value` exists
only while a link is up, and then it carries the stored handle. -/
def LinkEvent.inv (connected : Bool) (s : Int × EventQueue) : Prop :=
  ∀ task ∈ s.2.tasks, task.callback = Callback.update_sensor_value →
    connected = true ∧ task.id = s.1

/-- Whether a successful `on_init_complete` has run after an event. -/
def Event.next_inited (inited : Bool) : Event → Bool
  | .init_complete error _ => inited || decide (error = BLE_ERROR_NONE)
  | _ => inited

/-- While the service pointer is NULL no registration of `update_sensor_value` is live. -/
def Track.no_update_without_service (s : Track × World ℚ) : Prop :=
  s.1._thermometer_service = none →
    ∀ task ∈ s.2.event_queue.tasks, task.callback ≠ Callback.update_sensor_value

/-! ## Trace lemmas -/

theorem World.since_of_trace {F : Type} (w1 w2 : World F) (l : List (Call F))
    (h : w2.trace = w1.trace ++ l) : World.since w1 w2 = l := by
  simp [World.since, h]

/-! ## C1: clamping in the weight variant -/

/-- C1: in the weight variant, for every reading `x` returned by `read()`, the call of
`update_sensor_value` (with the service constructed) passes exactly one value to
`updateTemperature`, and that value is `max x 0`: it is `x` when `0 ≤ x`, it is `0` when
`x < 0`, and it is never negative. -/
theorem Track.update_sensor_value_publishes_clamped (readRaw_result : Int) (x : ℚ) (t : Track)
    (w : World ℚ) (service : HealthThermometerService ℚ)
    (hs : t._thermometer_service = some service) :
    ∃ t1 w1, Track.update_sensor_value readRaw_result x (t, w) = some (t1, w1) ∧
      World.published_since w w1 = [max x 0] ∧
      (0 ≤ x → World.published_since w w1 = [x]) ∧
      (x < 0 → World.published_since w w1 = [0]) ∧
      (∀ v ∈ World.published_since w w1, 0 ≤ v) ∧
      t1.units = some (max x 0) := by
  by_cases hx : x < 0
  · have hm : max x 0 = 0 := max_eq_right (le_of_lt hx)
    refine ⟨_, _, by simp [Track.update_sensor_value, hs, hx]; exact ⟨rfl, rfl⟩, ?_⟩
    simp [World.published_since, World.since, World.emit, Call.published, hm, hx, not_le.mpr hx]
  · have hx0 : 0 ≤ x := not_lt.mp hx
    have hm : max x 0 = x := max_eq_left hx0
    refine ⟨_, _, by simp [Track.update_sensor_value, hs, hx]; exact ⟨rfl, rfl⟩, ?_⟩
    simp [World.published_since, World.since, World.emit, Call.published, hm, hx, hx0]

/-- Witness of C1 in the state reached by a successful initialisation, for the reading -3. -/
theorem Track.update_sensor_value_publishes_clamped_witness :
    (Track.on_init_complete 0 ⟨0, 0, 0⟩ (Track.new, World.boot ℚ)).1._thermometer_service
        = some ⟨396 / 10, SensorLocation.LOCATION_EAR⟩ ∧
    ∃ t1 w1, Track.update_sensor_value 7 (-3)
        ((Track.on_init_complete 0 ⟨0, 0, 0⟩ (Track.new, World.boot ℚ)).1, World.boot ℚ)
        = some (t1, w1) ∧
      World.published_since (World.boot ℚ) w1 = [max (-3) 0] ∧
      ((0 : ℚ) ≤ -3 → World.published_since (World.boot ℚ) w1 = [-3]) ∧
      ((-3 : ℚ) < 0 → World.published_since (World.boot ℚ) w1 = [0]) ∧
      (∀ v ∈ World.published_since (World.boot ℚ) w1, 0 ≤ v) ∧
      t1.units = some (max (-3) 0) :=
  ⟨rfl, Track.update_sensor_value_publishes_clamped 7 (-3) _ (World.boot ℚ)
    ⟨396 / 10, SensorLocation.LOCATION_EAR⟩ rfl⟩

/-! ## C3 and C4: the connection handlers -/

/-- C3: for every prior state of either variant, `onConnectionComplete` with status
`BLE_ERROR_NONE` registers `update_sensor_value` as a periodic task of period 1000 ms (one
`call_every`, nothing else) and stores the handle the event queue returns in
`_sensor_event_id`, leaving the other members alone; with any other status it changes
nothing: no call, same `_sensor_event_id`, same event queue. -/
theorem onConnectionComplete_schedules_iff_status_ok {F : Type} (status : ble_error_t)
    (t : Track) (w : World ℚ) (d : ThermometerDemo F) (v : World F) :
    (status = BLE_ERROR_NONE →
      (Track.onConnectionComplete status (t, w)).1 =
          { t with _sensor_event_id := (w.event_queue.call_every 1000 .update_sensor_value).1 } ∧
      (Track.onConnectionComplete status (t, w)).2.event_queue =
          (w.event_queue.call_every 1000 .update_sensor_value).2 ∧
      (⟨(Track.onConnectionComplete status (t, w)).1._sensor_event_id, 1000,
          .update_sensor_value⟩ : PeriodicTask) ∈
          (Track.onConnectionComplete status (t, w)).2.event_queue.tasks ∧
      World.since w (Track.onConnectionComplete status (t, w)).2 =
          [.call_every 1000 .update_sensor_value] ∧
      (ThermometerDemo.onConnectionComplete status (d, v)).1 =
          { d with _sensor_event_id := (v.event_queue.call_every 1000 .update_sensor_value).1 } ∧
      (ThermometerDemo.onConnectionComplete status (d, v)).2.event_queue =
          (v.event_queue.call_every 1000 .update_sensor_value).2 ∧
      (⟨(ThermometerDemo.onConnectionComplete status (d, v)).1._sensor_event_id, 1000,
          .update_sensor_value⟩ : PeriodicTask) ∈
          (ThermometerDemo.onConnectionComplete status (d, v)).2.event_queue.tasks ∧
      World.since v (ThermometerDemo.onConnectionComplete status (d, v)).2 =
          [.call_every 1000 .update_sensor_value]) ∧
    (status ≠ BLE_ERROR_NONE →
      Track.onConnectionComplete status (t, w) = (t, w) ∧
      ThermometerDemo.onConnectionComplete status (d, v) = (d, v)) := by
  constructor
  · intro h
    simp [Track.onConnectionComplete, ThermometerDemo.onConnectionComplete, h,
      World.call_every, EventQueue.call_every, World.emit, World.since]
  · intro h
    simp [Track.onConnectionComplete, ThermometerDemo.onConnectionComplete, h]

/-- Witness of C3 from the initial state: status 0 stores handle 1, status 4 changes
nothing. -/
theorem onConnectionComplete_schedules_iff_status_ok_witness :
    (Track.onConnectionComplete 0 (Track.new, World.boot ℚ)).1._sensor_event_id = 1 ∧
    (Track.onConnectionComplete 0 (Track.new, World.boot ℚ)).2.event_queue.tasks =
      [⟨1, 1000, .update_sensor_value⟩] ∧
    Track.onConnectionComplete 4 (Track.new, World.boot ℚ) = (Track.new, World.boot ℚ) :=
  ⟨congrArg Track._sensor_event_id
      ((onConnectionComplete_schedules_iff_status_ok 0 Track.new (World.boot ℚ)
        (ThermometerDemo.new FloatOps.rational) (World.boot ℚ)).1 rfl).1,
    congrArg EventQueue.tasks
      ((onConnectionComplete_schedules_iff_status_ok 0 Track.new (World.boot ℚ)
        (ThermometerDemo.new FloatOps.rational) (World.boot ℚ)).1 rfl).2.1,
    ((onConnectionComplete_schedules_iff_status_ok 4 Track.new (World.boot ℚ)
      (ThermometerDemo.new FloatOps.rational) (World.boot ℚ)).2 (by decide)).1⟩

/-- C4: for every prior state of either variant and whatever the BLE stack answers,
`onDisconnectionComplete` issues exactly two calls: one `cancel` on the event queue with
the stored `_sensor_event_id`, then one `startAdvertising` on the legacy advertising
handle; no member of the application object changes.  In the never-connected state the
cancelled handle is the initial 0. -/
theorem onDisconnectionComplete_cancels_then_readvertises {F : Type} (r : ble_error_t)
    (t : Track) (w : World ℚ) (d : ThermometerDemo F) (v : World F) (ops : FloatOps F) :
    (Track.onDisconnectionComplete r (t, w)).1 = t ∧
    World.since w (Track.onDisconnectionComplete r (t, w)).2 =
      [.cancel t._sensor_event_id, .startAdvertising LEGACY_ADVERTISING_HANDLE] ∧
    (Track.onDisconnectionComplete r (t, w)).2.event_queue =
      w.event_queue.cancel t._sensor_event_id ∧
    (ThermometerDemo.onDisconnectionComplete r (d, v)).1 = d ∧
    World.since v (ThermometerDemo.onDisconnectionComplete r (d, v)).2 =
      [.cancel d._sensor_event_id, .startAdvertising LEGACY_ADVERTISING_HANDLE] ∧
    (ThermometerDemo.onDisconnectionComplete r (d, v)).2.event_queue =
      v.event_queue.cancel d._sensor_event_id ∧
    World.since w (Track.onDisconnectionComplete r (Track.new, w)).2 =
      [.cancel 0, .startAdvertising LEGACY_ADVERTISING_HANDLE] ∧
    World.since v (ThermometerDemo.onDisconnectionComplete r (ThermometerDemo.new ops, v)).2 =
      [.cancel 0, .startAdvertising LEGACY_ADVERTISING_HANDLE] := by
  simp [Track.onDisconnectionComplete, ThermometerDemo.onDisconnectionComplete,
    Gap.startAdvertising, World.cancel, World.emit, World.since, Track.new, ThermometerDemo.new]

/-! ## C5 and C6: initialisation and advertising start-up -/

/-- The calls `Track::start_advertising` adds to the trace, for each outcome of the three
Gap calls. -/
theorem Track.start_advertising_trace (gap : GapResults) (t : Track) (w : World ℚ) :
    (Track.start_advertising gap (t, w)).1 = t ∧
    (Track.start_advertising gap (t, w)).2.event_queue = w.event_queue ∧
    (Track.start_advertising gap (t, w)).2.trace = w.trace ++
      ([.setFlags, .setAppearance, .setName Track.DEVICE_NAME,
        .setAdvertisingParameters LEGACY_ADVERTISING_HANDLE 1000] ++
      if gap.setAdvertisingParameters ≠ 0 then
        [.print_error gap.setAdvertisingParameters "_ble.gap().setAdvertisingParameters() failed"]
      else [.setAdvertisingPayload LEGACY_ADVERTISING_HANDLE] ++
        (if gap.setAdvertisingPayload ≠ 0 then
          [.print_error gap.setAdvertisingPayload "_ble.gap().setAdvertisingPayload() failed"]
        else [.startAdvertising LEGACY_ADVERTISING_HANDLE] ++
          (if gap.startAdvertising ≠ 0 then
            [.print_error gap.startAdvertising "_ble.gap().startAdvertising() failed"]
          else []))) := by
  by_cases h1 : gap.setAdvertisingParameters = 0 <;>
  by_cases h2 : gap.setAdvertisingPayload = 0 <;>
  by_cases h3 : gap.startAdvertising = 0 <;>
  simp [Track.start_advertising, Gap.setAdvertisingParameters, Gap.setAdvertisingPayload,
    Gap.startAdvertising, World.emit, World.since, h1, h2, h3]

/-- The calls `ThermometerDemo::start_advertising` adds to the trace, for each outcome of the
three Gap calls. -/
theorem ThermometerDemo.analog_start_advertising_trace {F : Type} (gap : GapResults)
    (d : ThermometerDemo F) (w : World F) :
    (ThermometerDemo.start_advertising gap (d, w)).1 = d ∧
    (ThermometerDemo.start_advertising gap (d, w)).2.event_queue = w.event_queue ∧
    (ThermometerDemo.start_advertising gap (d, w)).2.trace = w.trace ++
      ([.setFlags, .setLocalServiceList, .setAppearance, .setName ThermometerDemo.DEVICE_NAME,
        .setAdvertisingParameters LEGACY_ADVERTISING_HANDLE 1000] ++
      if gap.setAdvertisingParameters ≠ 0 then
        [.print_error gap.setAdvertisingParameters "_ble.gap().setAdvertisingParameters() failed"]
      else [.setAdvertisingPayload LEGACY_ADVERTISING_HANDLE] ++
        (if gap.setAdvertisingPayload ≠ 0 then
          [.print_error gap.setAdvertisingPayload "_ble.gap().setAdvertisingPayload() failed"]
        else [.startAdvertising LEGACY_ADVERTISING_HANDLE] ++
          (if gap.startAdvertising ≠ 0 then
            [.print_error gap.startAdvertising "_ble.gap().startAdvertising() failed"]
          else []))) := by
  by_cases h1 : gap.setAdvertisingParameters = 0 <;>
  by_cases h2 : gap.setAdvertisingPayload = 0 <;>
  by_cases h3 : gap.startAdvertising = 0 <;>
  simp [ThermometerDemo.start_advertising, Gap.setAdvertisingParameters,
    Gap.setAdvertisingPayload, Gap.startAdvertising, World.emit, World.since, h1, h2, h3]

/-- C6: in `start_advertising` of either variant, for every combination of answers of the
three Gap calls, `setAdvertisingParameters` is called once; `setAdvertisingPayload` is called
(once) exactly when `setAdvertisingParameters` succeeded and `startAdvertising` is called
(once) exactly when both earlier calls succeeded; no call is made twice; and the number
of diagnostics is 0 when all three succeed and 1 otherwise. -/
theorem start_advertising_calls_and_diagnostics {F : Type} (gap : GapResults)
    (t : Track) (w : World ℚ) (d : ThermometerDemo F) (v : World F) :
    ((World.since w (Track.start_advertising gap (t, w)).2).countP
        Call.is_setAdvertisingParameters = 1 ∧
      ((World.since w (Track.start_advertising gap (t, w)).2).countP
        Call.is_setAdvertisingPayload = 1 ↔ gap.setAdvertisingParameters = BLE_ERROR_NONE) ∧
      ((World.since w (Track.start_advertising gap (t, w)).2).countP
        Call.is_startAdvertising = 1 ↔ gap.setAdvertisingParameters = BLE_ERROR_NONE ∧
          gap.setAdvertisingPayload = BLE_ERROR_NONE) ∧
      (World.since w (Track.start_advertising gap (t, w)).2).countP
        Call.is_setAdvertisingPayload ≤ 1 ∧
      (World.since w (Track.start_advertising gap (t, w)).2).countP
        Call.is_startAdvertising ≤ 1 ∧
      (World.since w (Track.start_advertising gap (t, w)).2).countP Call.is_diagnostic =
        (if gap.setAdvertisingParameters = BLE_ERROR_NONE ∧
            gap.setAdvertisingPayload = BLE_ERROR_NONE ∧
            gap.startAdvertising = BLE_ERROR_NONE then 0 else 1)) ∧
    ((World.since v (ThermometerDemo.start_advertising gap (d, v)).2).countP
        Call.is_setAdvertisingParameters = 1 ∧
      ((World.since v (ThermometerDemo.start_advertising gap (d, v)).2).countP
        Call.is_setAdvertisingPayload = 1 ↔ gap.setAdvertisingParameters = BLE_ERROR_NONE) ∧
      ((World.since v (ThermometerDemo.start_advertising gap (d, v)).2).countP
        Call.is_startAdvertising = 1 ↔ gap.setAdvertisingParameters = BLE_ERROR_NONE ∧
          gap.setAdvertisingPayload = BLE_ERROR_NONE) ∧
      (World.since v (ThermometerDemo.start_advertising gap (d, v)).2).countP
        Call.is_setAdvertisingPayload ≤ 1 ∧
      (World.since v (ThermometerDemo.start_advertising gap (d, v)).2).countP
        Call.is_startAdvertising ≤ 1 ∧
      (World.since v (ThermometerDemo.start_advertising gap (d, v)).2).countP Call.is_diagnostic =
        (if gap.setAdvertisingParameters = BLE_ERROR_NONE ∧
            gap.setAdvertisingPayload = BLE_ERROR_NONE ∧
            gap.startAdvertising = BLE_ERROR_NONE then 0 else 1)) := by
  rw [World.since_of_trace _ _ _ (Track.start_advertising_trace gap t w).2.2,
    World.since_of_trace _ _ _ (ThermometerDemo.analog_start_advertising_trace gap d v).2.2]
  by_cases h1 : gap.setAdvertisingParameters = 0 <;>
  by_cases h2 : gap.setAdvertisingPayload = 0 <;>
  by_cases h3 : gap.startAdvertising = 0 <;>
  simp [BLE_ERROR_NONE, h1, h2, h3, List.countP_cons, Call.is_setAdvertisingParameters,
    Call.is_setAdvertisingPayload, Call.is_startAdvertising, Call.is_diagnostic]

/-- C5: in either variant, when the initialisation result carries an error code other than
`BLE_ERROR_NONE`, `on_init_complete` issues exactly one call, the diagnostic
`print_error`: no service is created (the pointer keeps its value) and none of
`setAdvertisingParameters`, `setAdvertisingPayload`, `startAdvertising` is called.  When
the code is `BLE_ERROR_NONE` it creates the service, stores it, and then runs
`start_advertising`. -/
theorem on_init_complete_error_or_service {F : Type} (error : ble_error_t) (gap : GapResults)
    (t : Track) (w : World ℚ) (d : ThermometerDemo F) (v : World F) :
    (error ≠ BLE_ERROR_NONE →
      (Track.on_init_complete error gap (t, w)).1 = t ∧
      World.since w (Track.on_init_complete error gap (t, w)).2 =
        [.print_error error "Ble initialization failed."] ∧
      (World.since w (Track.on_init_complete error gap (t, w)).2).countP
        Call.is_diagnostic = 1 ∧
      (World.since w (Track.on_init_complete error gap (t, w)).2).countP
        Call.is_service_creation = 0 ∧
      (World.since w (Track.on_init_complete error gap (t, w)).2).countP
        Call.is_advertising_call = 0 ∧
      (ThermometerDemo.on_init_complete error gap (d, v)).1 = d ∧
      World.since v (ThermometerDemo.on_init_complete error gap (d, v)).2 =
        [.print_error error "Ble initialization failed."] ∧
      (World.since v (ThermometerDemo.on_init_complete error gap (d, v)).2).countP
        Call.is_diagnostic = 1 ∧
      (World.since v (ThermometerDemo.on_init_complete error gap (d, v)).2).countP
        Call.is_service_creation = 0 ∧
      (World.since v (ThermometerDemo.on_init_complete error gap (d, v)).2).countP
        Call.is_advertising_call = 0) ∧
    (error = BLE_ERROR_NONE →
      Track.on_init_complete error gap (t, w) =
        Track.start_advertising gap
          ({ t with _thermometer_service := some ⟨t._current_temperature, .LOCATION_EAR⟩ },
            (w.emit .print_mac_address).emit
              (.new_HealthThermometerService t._current_temperature)) ∧
      (Track.on_init_complete error gap (t, w)).1._thermometer_service =
        some ⟨t._current_temperature, SensorLocation.LOCATION_EAR⟩ ∧
      (World.since w (Track.on_init_complete error gap (t, w)).2).take 2 =
        [.print_mac_address, .new_HealthThermometerService t._current_temperature] ∧
      ThermometerDemo.on_init_complete error gap (d, v) =
        ThermometerDemo.start_advertising gap
          ({ d with _tensitionr_service := some ⟨d._current_tensition, .LOCATION_EAR⟩ },
            (v.emit .print_mac_address).emit
              (.new_HealthThermometerService d._current_tensition)) ∧
      (ThermometerDemo.on_init_complete error gap (d, v)).1._tensitionr_service =
        some ⟨d._current_tensition, SensorLocation.LOCATION_EAR⟩ ∧
      (World.since v (ThermometerDemo.on_init_complete error gap (d, v)).2).take 2 =
        [.print_mac_address, .new_HealthThermometerService d._current_tensition]) := by
  constructor
  · intro h
    simp [Track.on_init_complete, ThermometerDemo.on_init_complete, h, World.emit, World.since,
      Call.is_diagnostic, Call.is_service_creation, Call.is_advertising_call]
  · intro h
    subst h
    have e1 := Track.start_advertising_trace gap
      { t with _thermometer_service := some ⟨t._current_temperature, SensorLocation.LOCATION_EAR⟩ }
      ((w.emit .print_mac_address).emit (.new_HealthThermometerService t._current_temperature))
    have e2 := ThermometerDemo.analog_start_advertising_trace gap
      { d with _tensitionr_service := some ⟨d._current_tensition, SensorLocation.LOCATION_EAR⟩ }
      ((v.emit .print_mac_address).emit (.new_HealthThermometerService d._current_tensition))
    refine ⟨rfl, ?_, ?_, rfl, ?_, ?_⟩
    · exact congrArg Track._thermometer_service e1.1
    · have h : (Track.on_init_complete BLE_ERROR_NONE gap (t, w)).2.trace = _ := e1.2.2
      simp [World.since, h, World.emit]
    · exact congrArg ThermometerDemo._tensitionr_service e2.1
    · have h : (ThermometerDemo.on_init_complete BLE_ERROR_NONE gap (d, v)).2.trace = _ := e2.2.2
      simp [World.since, h, World.emit]

/-- Witness of C5: initialisation failing with code 3 yields the one diagnostic. -/
theorem on_init_complete_error_or_service_witness :
    World.since (World.boot ℚ)
      (Track.on_init_complete 3 ⟨0, 0, 0⟩ (Track.new, World.boot ℚ)).2 =
        [.print_error 3 "Ble initialization failed."] ∧
    (Track.on_init_complete 0 ⟨0, 0, 0⟩ (Track.new, World.boot ℚ)).1._thermometer_service =
      some ⟨396 / 10, .LOCATION_EAR⟩ :=
  ⟨((on_init_complete_error_or_service 3 ⟨0, 0, 0⟩ Track.new (World.boot ℚ)
      (ThermometerDemo.new FloatOps.rational) (World.boot ℚ)).1 (by decide)).2.1,
    ((on_init_complete_error_or_service 0 ⟨0, 0, 0⟩ Track.new (World.boot ℚ)
      (ThermometerDemo.new FloatOps.rational) (World.boot ℚ)).2 rfl).2.1⟩

/-! ## C8: which Gap results are checked -/

/-- C8, as stated, fails: when the `startAdvertising` request issued from
`onDisconnectionComplete` (here in the never-connected state) fails with code 1, the call
has been made, yet no diagnostic is produced. -/
theorem onDisconnectionComplete_failure_not_reported :
    (1 : ble_error_t) ≠ BLE_ERROR_NONE ∧
    (World.since (World.boot ℚ) (Track.onDisconnectionComplete 1 (Track.new, World.boot ℚ)).2).countP
      Call.is_startAdvertising = 1 ∧
    ¬ ((World.since (World.boot ℚ)
      (Track.onDisconnectionComplete 1 (Track.new, World.boot ℚ)).2).countP
      Call.is_diagnostic = 1) := by
  simp [Track.onDisconnectionComplete, Gap.startAdvertising, World.cancel, World.emit,
    World.since, World.boot, Track.new, BLE_ERROR_NONE, Call.is_startAdvertising,
    Call.is_diagnostic, List.countP_cons]

/-- C8, amended: in `start_advertising` of either variant each of the three Gap calls has
its code checked right after the call, and a failure ends the function with exactly one
diagnostic carrying that code as the last call of the trace; the `startAdvertising`
request issued from `onDisconnectionComplete` has its result discarded: whatever it is,
the handler does the same as for a success and produces no diagnostic. -/
theorem gap_results_checked_in_start_advertising_only {F : Type} (gap : GapResults)
    (r : ble_error_t) (t : Track) (w : World ℚ) (d : ThermometerDemo F) (v : World F) :
    (gap.setAdvertisingParameters ≠ BLE_ERROR_NONE →
      World.since w (Track.start_advertising gap (t, w)).2 =
        [.setFlags, .setAppearance, .setName Track.DEVICE_NAME,
          .setAdvertisingParameters LEGACY_ADVERTISING_HANDLE 1000,
          .print_error gap.setAdvertisingParameters
            "_ble.gap().setAdvertisingParameters() failed"] ∧
      World.since v (ThermometerDemo.start_advertising gap (d, v)).2 =
        [.setFlags, .setLocalServiceList, .setAppearance, .setName ThermometerDemo.DEVICE_NAME,
          .setAdvertisingParameters LEGACY_ADVERTISING_HANDLE 1000,
          .print_error gap.setAdvertisingParameters
            "_ble.gap().setAdvertisingParameters() failed"]) ∧
    (gap.setAdvertisingParameters = BLE_ERROR_NONE →
      gap.setAdvertisingPayload ≠ BLE_ERROR_NONE →
      World.since w (Track.start_advertising gap (t, w)).2 =
        [.setFlags, .setAppearance, .setName Track.DEVICE_NAME,
          .setAdvertisingParameters LEGACY_ADVERTISING_HANDLE 1000,
          .setAdvertisingPayload LEGACY_ADVERTISING_HANDLE,
          .print_error gap.setAdvertisingPayload "_ble.gap().setAdvertisingPayload() failed"] ∧
      World.since v (ThermometerDemo.start_advertising gap (d, v)).2 =
        [.setFlags, .setLocalServiceList, .setAppearance, .setName ThermometerDemo.DEVICE_NAME,
          .setAdvertisingParameters LEGACY_ADVERTISING_HANDLE 1000,
          .setAdvertisingPayload LEGACY_ADVERTISING_HANDLE,
          .print_error gap.setAdvertisingPayload "_ble.gap().setAdvertisingPayload() failed"]) ∧
    (gap.setAdvertisingParameters = BLE_ERROR_NONE →
      gap.setAdvertisingPayload = BLE_ERROR_NONE →
      gap.startAdvertising ≠ BLE_ERROR_NONE →
      World.since w (Track.start_advertising gap (t, w)).2 =
        [.setFlags, .setAppearance, .setName Track.DEVICE_NAME,
          .setAdvertisingParameters LEGACY_ADVERTISING_HANDLE 1000,
          .setAdvertisingPayload LEGACY_ADVERTISING_HANDLE,
          .startAdvertising LEGACY_ADVERTISING_HANDLE,
          .print_error gap.startAdvertising "_ble.gap().startAdvertising() failed"] ∧
      World.since v (ThermometerDemo.start_advertising gap (d, v)).2 =
        [.setFlags, .setLocalServiceList, .setAppearance, .setName ThermometerDemo.DEVICE_NAME,
          .setAdvertisingParameters LEGACY_ADVERTISING_HANDLE 1000,
          .setAdvertisingPayload LEGACY_ADVERTISING_HANDLE,
          .startAdvertising LEGACY_ADVERTISING_HANDLE,
          .print_error gap.startAdvertising "_ble.gap().startAdvertising() failed"]) ∧
    Track.onDisconnectionComplete r (t, w) = Track.onDisconnectionComplete BLE_ERROR_NONE (t, w) ∧
    (World.since w (Track.onDisconnectionComplete r (t, w)).2).countP Call.is_diagnostic = 0 ∧
    ThermometerDemo.onDisconnectionComplete r (d, v) =
      ThermometerDemo.onDisconnectionComplete BLE_ERROR_NONE (d, v) ∧
    (World.since v (ThermometerDemo.onDisconnectionComplete r (d, v)).2).countP
      Call.is_diagnostic = 0 := by
  rw [World.since_of_trace _ _ _ (Track.start_advertising_trace gap t w).2.2,
    World.since_of_trace _ _ _ (ThermometerDemo.analog_start_advertising_trace gap d v).2.2]
  refine ⟨?_, ?_, ?_, ?_⟩
  · intro h1
    simp [BLE_ERROR_NONE] at h1
    simp [h1]
  · intro h1 h2
    simp [BLE_ERROR_NONE] at h1 h2
    simp [h1, h2]
  · intro h1 h2 h3
    simp [BLE_ERROR_NONE] at h1 h2 h3
    simp [h1, h2, h3]
  · simp [Track.onDisconnectionComplete, ThermometerDemo.onDisconnectionComplete,
      Gap.startAdvertising, World.cancel, World.emit, World.since, Call.is_diagnostic,
      List.countP_cons]

/-- Witness of the amended C8: the parameter call fails with code 7. -/
theorem gap_results_checked_in_start_advertising_only_witness :
    World.since (World.boot ℚ)
        (Track.start_advertising ⟨7, 0, 0⟩ (Track.new, World.boot ℚ)).2 =
      [.setFlags, .setAppearance, .setName Track.DEVICE_NAME,
        .setAdvertisingParameters LEGACY_ADVERTISING_HANDLE 1000,
        .print_error 7 "_ble.gap().setAdvertisingParameters() failed"] :=
  ((gap_results_checked_in_start_advertising_only ⟨7, 0, 0⟩ 1 Track.new (World.boot ℚ)
    (ThermometerDemo.new FloatOps.rational) (World.boot ℚ)).1 (by decide)).1

/-! ## C2: the publisher task across connections and disconnections -/

theorem Track.on_link_event_effect (s : Track × World ℚ) (e : LinkEvent) :
    ((Track.on_link_event s e).1._sensor_event_id, (Track.on_link_event s e).2.event_queue) =
      LinkEvent.effect (s.1._sensor_event_id, s.2.event_queue) e := by
  cases e with
  | connection_complete status =>
    by_cases h : status = BLE_ERROR_NONE <;>
    simp [Track.on_link_event, Track.onConnectionComplete, LinkEvent.effect, h,
      World.call_every, World.emit]
  | disconnection_complete r =>
    simp [Track.on_link_event, Track.onDisconnectionComplete, LinkEvent.effect,
      Gap.startAdvertising, World.cancel, World.emit]

theorem ThermometerDemo.analog_on_link_event_effect {F : Type} (s : ThermometerDemo F × World F)
    (e : LinkEvent) :
    ((ThermometerDemo.on_link_event s e).1._sensor_event_id,
        (ThermometerDemo.on_link_event s e).2.event_queue) =
      LinkEvent.effect (s.1._sensor_event_id, s.2.event_queue) e := by
  cases e with
  | connection_complete status =>
    by_cases h : status = BLE_ERROR_NONE <;>
    simp [ThermometerDemo.on_link_event, ThermometerDemo.onConnectionComplete,
      LinkEvent.effect, h, World.call_every, World.emit]
  | disconnection_complete r =>
    simp [ThermometerDemo.on_link_event, ThermometerDemo.onDisconnectionComplete,
      LinkEvent.effect, Gap.startAdvertising, World.cancel, World.emit]

theorem Track.run_link_effect (evs : List LinkEvent) (s : Track × World ℚ) :
    ((Track.run_link s evs).1._sensor_event_id, (Track.run_link s evs).2.event_queue) =
      evs.foldl LinkEvent.effect (s.1._sensor_event_id, s.2.event_queue) := by
  induction evs generalizing s with
  | nil => rfl
  | cons e es ih =>
    have h := ih (Track.on_link_event s e)
    rw [Track.on_link_event_effect] at h
    simpa [Track.run_link] using h

theorem ThermometerDemo.analog_run_link_effect {F : Type} (evs : List LinkEvent)
    (s : ThermometerDemo F × World F) :
    ((ThermometerDemo.run_link s evs).1._sensor_event_id,
        (ThermometerDemo.run_link s evs).2.event_queue) =
      evs.foldl LinkEvent.effect (s.1._sensor_event_id, s.2.event_queue) := by
  induction evs generalizing s with
  | nil => rfl
  | cons e es ih =>
    have h := ih (ThermometerDemo.on_link_event s e)
    rw [ThermometerDemo.analog_on_link_event_effect] at h
    simpa [ThermometerDemo.run_link] using h

theorem LinkEvent.inv_step (connected : Bool) (s : Int × EventQueue) (e : LinkEvent)
    (es : List LinkEvent) (hinv : LinkEvent.inv connected s)
    (halt : LinkEvent.alternating connected (e :: es) = true) :
    LinkEvent.inv (LinkEvent.next_connected connected e) (LinkEvent.effect s e) ∧
      LinkEvent.alternating (LinkEvent.next_connected connected e) es = true := by
  cases e with
  | connection_complete status =>
    by_cases h : status = BLE_ERROR_NONE
    · simp only [LinkEvent.alternating, h, if_true, Bool.and_eq_true, Bool.not_eq_true'] at halt
      refine ⟨?_, by simpa [LinkEvent.next_connected, h] using halt.2⟩
      intro task hmem hcb
      simp only [LinkEvent.effect, h, if_true, EventQueue.call_every, List.mem_append,
        List.mem_singleton] at hmem
      rcases hmem with hmem | hmem
      · have := (hinv task hmem hcb).1
        rw [halt.1] at this
        exact absurd this (by decide)
      · subst hmem
        simp [LinkEvent.next_connected, h, LinkEvent.effect, EventQueue.call_every]
    · simp only [LinkEvent.alternating, h, if_false] at halt
      simpa [LinkEvent.next_connected, LinkEvent.effect, h] using And.intro hinv halt
  | disconnection_complete r =>
    simp only [LinkEvent.alternating] at halt
    refine ⟨?_, by simpa [LinkEvent.next_connected] using halt⟩
    intro task hmem hcb
    simp only [LinkEvent.effect, EventQueue.cancel, List.mem_filter, decide_eq_true_eq] at hmem
    exact absurd (hinv task hmem.1 hcb).2 hmem.2

theorem LinkEvent.alternating_prefix (p q : List LinkEvent) (connected : Bool)
    (h : LinkEvent.alternating connected (p ++ q) = true) :
    LinkEvent.alternating connected p = true := by
  induction p generalizing connected with
  | nil => rfl
  | cons e es ih =>
    cases e with
    | connection_complete status =>
      by_cases hs : status = BLE_ERROR_NONE
      · simp only [List.cons_append, LinkEvent.alternating, hs, if_true, Bool.and_eq_true] at h ⊢
        exact ⟨h.1, ih true h.2⟩
      · simp only [List.cons_append, LinkEvent.alternating, hs, if_false] at h ⊢
        exact ih connected h
    | disconnection_complete r =>
      simp only [List.cons_append, LinkEvent.alternating] at h ⊢
      exact ih false h

theorem LinkEvent.none_scheduled_after_disconnect (evs : List LinkEvent) (connected : Bool)
    (s : Int × EventQueue) (hinv : LinkEvent.inv connected s)
    (halt : LinkEvent.alternating connected evs = true) (r : ble_error_t) :
    ((evs ++ [LinkEvent.disconnection_complete r]).foldl LinkEvent.effect s).2.scheduled
      .update_sensor_value = [] := by
  induction evs generalizing connected s with
  | nil =>
    simp only [List.nil_append, List.foldl_cons, List.foldl_nil, EventQueue.scheduled,
      List.filter_eq_nil_iff, decide_eq_true_eq]
    intro task hmem hcb
    simp only [LinkEvent.effect, EventQueue.cancel, List.mem_filter, decide_eq_true_eq] at hmem
    exact hmem.2 (hinv task hmem.1 hcb).2
  | cons e es ih =>
    have hstep := LinkEvent.inv_step connected s e es hinv halt
    simpa using ih _ _ hstep.1 hstep.2

/-- C2, as stated, fails: two successful connection-complete events followed by a
disconnection-complete leave the first registration of `update_sensor_value` (handle 1)
on the event queue, because only the handle stored last is cancelled. -/
theorem publisher_left_scheduled_after_two_connects :
    (Track.run_link (Track.new, World.boot ℚ)
      [.connection_complete BLE_ERROR_NONE, .connection_complete BLE_ERROR_NONE,
        .disconnection_complete BLE_ERROR_NONE]).2.event_queue.scheduled .update_sensor_value
      = [⟨1, 1000, .update_sensor_value⟩] ∧
    (Track.run_link (Track.new, World.boot ℚ)
      [.connection_complete BLE_ERROR_NONE, .connection_complete BLE_ERROR_NONE,
        .disconnection_complete BLE_ERROR_NONE]).2.event_queue.scheduled .update_sensor_value
      ≠ [] := by
  constructor <;> decide

/-- C2, amended: for every finite sequence of connection-complete and
disconnection-complete events applied from the initial state (handle 0, nothing
scheduled) in which a successful connection-complete never arrives while a link is up,
after every disconnection-complete event no `update_sensor_value` task remains scheduled
on the event queue; this holds in both variants. -/
theorem publisher_not_scheduled_after_disconnect {F : Type} (ops : FloatOps F)
    (evs : List LinkEvent) (halt : LinkEvent.alternating false evs = true)
    (p rest : List LinkEvent) (r : ble_error_t)
    (hsplit : evs = p ++ LinkEvent.disconnection_complete r :: rest) :
    (Track.run_link (Track.new, World.boot ℚ)
      (p ++ [.disconnection_complete r])).2.event_queue.scheduled .update_sensor_value = [] ∧
    (ThermometerDemo.run_link (ThermometerDemo.new ops, World.boot F)
      (p ++ [.disconnection_complete r])).2.event_queue.scheduled .update_sensor_value = [] := by
  subst hsplit
  have hp : LinkEvent.alternating false p = true := LinkEvent.alternating_prefix p _ false halt
  have hinv : LinkEvent.inv false ((0 : Int), EventQueue.empty) := by
    intro task hmem
    simp [EventQueue.empty] at hmem
  have key := LinkEvent.none_scheduled_after_disconnect p false _ hinv hp r
  have h1 := Track.run_link_effect (p ++ [.disconnection_complete r]) (Track.new, World.boot ℚ)
  have h2 := ThermometerDemo.analog_run_link_effect (p ++ [.disconnection_complete r])
    (ThermometerDemo.new ops, World.boot F)
  constructor
  · have := congrArg Prod.snd h1
    simp only at this
    rw [this]
    exact key
  · have := congrArg Prod.snd h2
    simp only at this
    rw [this]
    exact key

/-- Witness of the amended C2: connect, disconnect, failed connect, connect, disconnect. -/
theorem publisher_not_scheduled_after_disconnect_witness :
    (Track.run_link (Track.new, World.boot ℚ)
      ([.connection_complete 0, .disconnection_complete 0, .connection_complete 5,
        .connection_complete 0] ++ [.disconnection_complete 3])).2.event_queue.scheduled
        .update_sensor_value = [] ∧
    (ThermometerDemo.run_link (ThermometerDemo.new FloatOps.rational, World.boot ℚ)
      ([.connection_complete 0, .disconnection_complete 0, .connection_complete 5,
        .connection_complete 0] ++ [.disconnection_complete 3])).2.event_queue.scheduled
        .update_sensor_value = [] :=
  publisher_not_scheduled_after_disconnect FloatOps.rational
    [.connection_complete 0, .disconnection_complete 0, .connection_complete 5,
      .connection_complete 0, .disconnection_complete 3, .connection_complete 0]
    (by decide)
    [.connection_complete 0, .disconnection_complete 0, .connection_complete 5,
      .connection_complete 0] [.connection_complete 0] 3 rfl

/-! ## C7: calibration with the configured scale -/

/-- C7: with the configured scale (-140.35, installed by `start`) and the calibration
`read() = (raw - offset) / scale`, every raw reading `r` above the offset `o` calibrates to
a negative value and `update_sensor_value` publishes exactly 0 for it; raw 2000 with
offset 500 calibrates to within 0.001 of -10.688 and publishes 0. -/
theorem Track.calibrated_above_offset_publishes_zero (r o : Int) (h : r > o) (s0 : Hx711)
    (x0 : ℚ) (readRaw_result : Int) (t : Track) (w : World ℚ)
    (service : HealthThermometerService ℚ) (hs : t._thermometer_service = some service) :
    (Track.start x0 (Track.new, s0, w)).2.1 = ⟨float_to_int x0, -14035 / 100⟩ ∧
    Hx711.read ⟨o, Track.new.calibration_factor⟩ r = ((r - o : Int) : ℚ) / (-14035 / 100) ∧
    Hx711.read ⟨o, Track.new.calibration_factor⟩ r < 0 ∧
    (∃ t1 w1, Track.update_sensor_value readRaw_result
        (Hx711.read ⟨o, Track.new.calibration_factor⟩ r) (t, w) = some (t1, w1) ∧
      World.published_since w w1 = [0]) ∧
    |Hx711.read ⟨500, Track.new.calibration_factor⟩ 2000 - (-10688 / 1000)| < 1 / 1000 ∧
    (∃ t1 w1, Track.update_sensor_value readRaw_result
        (Hx711.read ⟨500, Track.new.calibration_factor⟩ 2000) (t, w) = some (t1, w1) ∧
      World.published_since w w1 = [0]) := by
  have hneg : ∀ a b : Int, a > b → Hx711.read ⟨b, Track.new.calibration_factor⟩ a < 0 := by
    intro a b hab
    have hpos : (0 : ℚ) < ((a - b : Int) : ℚ) := by
      have : (0 : Int) < a - b := by omega
      exact_mod_cast this
    have hsc : Track.new.calibration_factor < 0 := by norm_num [Track.new]
    exact div_neg_of_pos_of_neg hpos hsc
  have hpub : ∀ x : ℚ, x < 0 → ∃ t1 w1, Track.update_sensor_value readRaw_result x (t, w)
      = some (t1, w1) ∧ World.published_since w w1 = [0] := by
    intro x hx
    refine ⟨_, _, by simp [Track.update_sensor_value, hs, hx]; exact ⟨rfl, rfl⟩, ?_⟩
    simp [World.published_since, World.since, World.emit, Call.published]
  refine ⟨?_, ?_, hneg r o h, hpub _ (hneg r o h), ?_, hpub _ (hneg 2000 500 (by decide))⟩
  · simp [Track.start, Hx711.set_offset, Hx711.set_scale, Track.new]
  · simp [Hx711.read, Track.new]
  · norm_num [Hx711.read, Track.new, abs_lt]

/-- Witness of C7 at raw 2000, offset 500, in the state reached by a successful
initialisation. -/
theorem Track.calibrated_above_offset_publishes_zero_witness :
    (2000 : Int) > 500 ∧
    Hx711.read ⟨500, Track.new.calibration_factor⟩ 2000 < 0 ∧
    |Hx711.read ⟨500, Track.new.calibration_factor⟩ 2000 - (-10688 / 1000)| < 1 / 1000 :=
  ⟨by decide,
    (Track.calibrated_above_offset_publishes_zero 2000 500 (by decide) ⟨0, 1⟩ 0 2000
      (Track.on_init_complete 0 ⟨0, 0, 0⟩ (Track.new, World.boot ℚ)).1 (World.boot ℚ)
      ⟨396 / 10, SensorLocation.LOCATION_EAR⟩ rfl).2.2.1,
    (Track.calibrated_above_offset_publishes_zero 2000 500 (by decide) ⟨0, 1⟩ 0 2000
      (Track.on_init_complete 0 ⟨0, 0, 0⟩ (Track.new, World.boot ℚ)).1 (World.boot ℚ)
      ⟨396 / 10, SensorLocation.LOCATION_EAR⟩ rfl).2.2.2.2.1⟩

/-! ## C9: the averaging loop of the analog variant -/

/-- C9: in the analog variant, for every prior `_current_tensition`, every analog input and
every positive amount of fuel, the averaging loop entered at `i = 0` returns after zero
iterations with the object and the trace unchanged (no sample read, no sleep, so no
evaluation of the division by the loop index); and `update_sensor_value`, when the service
exists, issues exactly `out1 = true`, the `printf`, `updateTemperature` and `out1 = false`,
and leaves `_current_tensition` as it was. -/
theorem ThermometerDemo.averaging_loop_runs_zero_iterations {F : Type} (ops : FloatOps F)
    (ain : Int → F) (c1 c2 : F) (fuel : Nat) (d : ThermometerDemo F) (w : World F) :
    ThermometerDemo.averaging_loop ops ain (fuel + 1) 0 (d, w) = some (0, d, w) ∧
    (∀ service, d._tensitionr_service = some service →
      ∃ w1, ThermometerDemo.update_sensor_value ops ain c1 c2 (fuel + 1) (d, w) = some (d, w1) ∧
        World.since w w1 =
          [.out1_write true, .printf_value d._current_tensition,
            .updateTemperature (ops.div (ops.add (ops.add d._current_tensition c1) c2)
              (ops.ofInt 3)),
            .out1_write false] ∧
        (World.since w w1).countP Call.is_ain_read = 0 ∧
        (World.since w w1).countP Call.is_sleep = 0) := by
  constructor
  · simp [ThermometerDemo.averaging_loop]
  · intro service hs
    have hrun : ∃ w1, ThermometerDemo.update_sensor_value ops ain c1 c2 (fuel + 1) (d, w)
        = some (d, w1) ∧ w1.trace = w.trace ++
          [.out1_write true, .printf_value d._current_tensition,
            .updateTemperature (ops.div (ops.add (ops.add d._current_tensition c1) c2)
              (ops.ofInt 3)),
            .out1_write false] := by
      simp [ThermometerDemo.update_sensor_value, ThermometerDemo.averaging_loop, hs,
        World.emit]
    obtain ⟨w1, hw1, htr⟩ := hrun
    refine ⟨w1, hw1, ?_⟩
    rw [World.since_of_trace w w1 _ htr]
    simp [Call.is_ain_read, Call.is_sleep, List.countP_cons]

/-- Witness of C9 over exact rational arithmetic: with `_current_tensition = 7`, a
service, and every sample equal to 1, the call returns the same object. -/
theorem ThermometerDemo.averaging_loop_runs_zero_iterations_witness :
    ∃ w1, ThermometerDemo.update_sensor_value FloatOps.rational (fun _ => 1) 2 3 (50 + 1)
        (⟨0, 7, some ⟨0, .LOCATION_EAR⟩⟩, World.boot ℚ)
      = some (⟨0, 7, some ⟨0, .LOCATION_EAR⟩⟩, w1) ∧
      World.since (World.boot ℚ) w1 =
        [.out1_write true, .printf_value 7,
          .updateTemperature (FloatOps.rational.div (FloatOps.rational.add
            (FloatOps.rational.add 7 2) 3) (FloatOps.rational.ofInt 3)),
          .out1_write false] ∧
      (World.since (World.boot ℚ) w1).countP Call.is_ain_read = 0 ∧
      (World.since (World.boot ℚ) w1).countP Call.is_sleep = 0 :=
  (ThermometerDemo.averaging_loop_runs_zero_iterations FloatOps.rational (fun _ => 1) 2 3 50
    ⟨0, 7, some ⟨0, .LOCATION_EAR⟩⟩ (World.boot ℚ)).2 ⟨0, .LOCATION_EAR⟩ rfl

/-! ## C10: the service pointer at every run of `update_sensor_value` -/

theorem Track.on_init_complete_fields (error : ble_error_t) (gap : GapResults)
    (s : Track × World ℚ) :
    (Track.on_init_complete error gap s).2.event_queue = s.2.event_queue ∧
    (error = BLE_ERROR_NONE → (Track.on_init_complete error gap s).1._thermometer_service ≠ none) ∧
    (error ≠ BLE_ERROR_NONE → (Track.on_init_complete error gap s).1 = s.1) ∧
    (s.1._thermometer_service ≠ none →
      (Track.on_init_complete error gap s).1._thermometer_service ≠ none) := by
  obtain ⟨t, w⟩ := s
  by_cases h : error = BLE_ERROR_NONE
  · have e := Track.start_advertising_trace gap
      { t with _thermometer_service := some ⟨t._current_temperature, .LOCATION_EAR⟩ }
      ((w.emit .print_mac_address).emit (.new_HealthThermometerService t._current_temperature))
    have hrun : Track.on_init_complete error gap (t, w) = Track.start_advertising gap
        ({ t with _thermometer_service := some ⟨t._current_temperature, .LOCATION_EAR⟩ },
          (w.emit .print_mac_address).emit
            (.new_HealthThermometerService t._current_temperature)) := by
      simp [Track.on_init_complete, h]
    rw [hrun, e.1, e.2.1]
    simp [World.emit, h]
  · simp [Track.on_init_complete, h, World.emit]

theorem Track.link_event_fields (s : Track × World ℚ) (e : LinkEvent) :
    (Track.on_link_event s e).1._thermometer_service = s.1._thermometer_service ∧
    (∀ r, e = LinkEvent.disconnection_complete r →
      ∀ task ∈ (Track.on_link_event s e).2.event_queue.tasks, task ∈ s.2.event_queue.tasks) := by
  obtain ⟨t, w⟩ := s
  cases e with
  | connection_complete status =>
    by_cases h : status = BLE_ERROR_NONE <;>
    simp [Track.on_link_event, Track.onConnectionComplete, h]
  | disconnection_complete r =>
    simp only [Track.on_link_event, Track.onDisconnectionComplete, Gap.startAdvertising,
      World.cancel, World.emit, EventQueue.cancel, true_and]
    intro _ _ task hmem
    exact (List.mem_filter.mp hmem).1

theorem Track.update_sensor_value_fields (readRaw_result : Int) (x : ℚ) (s : Track × World ℚ)
    (hs : s.1._thermometer_service ≠ none) :
    ∃ s1, Track.update_sensor_value readRaw_result x s = some s1 ∧
      s1.1._thermometer_service = s.1._thermometer_service ∧
      s1.2.event_queue = s.2.event_queue := by
  obtain ⟨t, w⟩ := s
  cases hsvc : t._thermometer_service with
  | none => exact absurd hsvc hs
  | some service => simp [Track.update_sensor_value, hsvc, World.emit]

theorem Track.update_sensor_value_keeps_service (readRaw_result : Int) (x : ℚ)
    (s s1 : Track × World ℚ) (h : Track.update_sensor_value readRaw_result x s = some s1) :
    s1.1._thermometer_service = s.1._thermometer_service := by
  obtain ⟨t, w⟩ := s
  cases hsvc : t._thermometer_service with
  | none => simp [Track.update_sensor_value, hsvc] at h
  | some service =>
    simp only [Track.update_sensor_value, hsvc, Option.some.injEq] at h
    rw [← h]

/-- No handler resets the service pointer: one dispatch keeps a non-NULL pointer non-NULL. -/
theorem Track.dispatch_keeps_service (s s1 : Track × World ℚ) (e : Event)
    (hs : s.1._thermometer_service ≠ none) (h : Track.dispatch s e = some s1) :
    s1.1._thermometer_service ≠ none := by
  cases e with
  | init_complete error gap =>
    simp only [Track.dispatch, Option.some.injEq] at h
    rw [← h]
    exact (Track.on_init_complete_fields error gap s).2.2.2 hs
  | link e =>
    simp only [Track.dispatch, Option.some.injEq] at h
    rw [← h, (Track.link_event_fields s e).1]
    exact hs
  | timer id readRaw_result read_result =>
    simp only [Track.dispatch] at h
    cases hl : s.2.event_queue.lookup id with
    | none =>
      simp only [hl, Option.some.injEq] at h
      rw [← h]
      exact hs
    | some task =>
      simp only [hl] at h
      cases hcb : task.callback with
      | blink =>
        simp only [hcb, Option.some.injEq] at h
        rw [← h]
        exact hs
      | update_sensor_value =>
        simp only [hcb] at h
        rw [Track.update_sensor_value_keeps_service _ _ _ _ h]
        exact hs

theorem Track.dispatch_invariant (inited : Bool) (s : Track × World ℚ) (e : Event)
    (es : List Event) (hi : inited = true → s.1._thermometer_service ≠ none)
    (hk : Track.no_update_without_service s)
    (hwf : Event.init_before_connect inited (e :: es) = true) :
    ∃ s1, Track.dispatch s e = some s1 ∧
      (Event.next_inited inited e = true → s1.1._thermometer_service ≠ none) ∧
      Track.no_update_without_service s1 ∧
      Event.init_before_connect (Event.next_inited inited e) es = true := by
  cases e with
  | init_complete error gap =>
    have hf := Track.on_init_complete_fields error gap s
    refine ⟨_, rfl, ?_, ?_, by simpa [Event.init_before_connect, Event.next_inited] using hwf⟩
    · intro hn
      simp only [Event.next_inited, Bool.or_eq_true, decide_eq_true_eq] at hn
      rcases hn with hn | hn
      · exact hf.2.2.2 (hi hn)
      · exact hf.2.1 hn
    · intro hnone
      by_cases herr : error = BLE_ERROR_NONE
      · exact absurd hnone (hf.2.1 herr)
      · rw [hf.1]
        rw [hf.2.2.1 herr] at hnone
        exact hk hnone
  | link e =>
    have hf := Track.link_event_fields s e
    cases e with
    | connection_complete status =>
      simp only [Event.init_before_connect, Bool.and_eq_true] at hwf
      refine ⟨_, rfl, ?_, ?_, by simpa [Event.next_inited] using hwf.2⟩
      · intro _
        rw [hf.1]
        exact hi hwf.1
      · intro hnone
        rw [hf.1] at hnone
        exact absurd hnone (hi hwf.1)
    | disconnection_complete r =>
      refine ⟨_, rfl, ?_, ?_, by simpa [Event.init_before_connect, Event.next_inited] using hwf⟩
      · intro hn
        rw [hf.1]
        exact hi (by simpa [Event.next_inited] using hn)
      · intro hnone task hmem
        rw [hf.1] at hnone
        exact hk hnone task (hf.2 r rfl task hmem)
  | timer id readRaw_result read_result =>
    have hwf1 : Event.init_before_connect inited es = true := by
      simpa [Event.init_before_connect] using hwf
    cases hl : s.2.event_queue.lookup id with
    | none =>
      exact ⟨s, by simp [Track.dispatch, hl], by simpa [Event.next_inited] using hi, hk,
        by simpa [Event.next_inited] using hwf1⟩
    | some task =>
      cases hcb : task.callback with
      | blink =>
        refine ⟨Track.blink s, by simp [Track.dispatch, hl, hcb], ?_, ?_,
          by simpa [Event.next_inited] using hwf1⟩
        · simpa [Event.next_inited, Track.blink] using hi
        · simpa [Track.no_update_without_service, Track.blink, World.emit] using hk
      | update_sensor_value =>
        have hmem : task ∈ s.2.event_queue.tasks := List.mem_of_find?_eq_some hl
        have hsvc : s.1._thermometer_service ≠ none := by
          intro hnone
          exact hk hnone task hmem hcb
        obtain ⟨s1, hrun, hs1, hq1⟩ := Track.update_sensor_value_fields readRaw_result read_result
          s hsvc
        refine ⟨s1, by simp [Track.dispatch, hl, hcb, hrun], ?_, ?_,
          by simpa [Event.next_inited] using hwf1⟩
        · intro _
          rw [hs1]
          exact hsvc
        · intro hnone
          rw [hs1] at hnone
          exact absurd hnone hsvc

theorem Track.dispatch_forever_invariant (evs : List Event) (inited : Bool)
    (s : Track × World ℚ) (hi : inited = true → s.1._thermometer_service ≠ none)
    (hk : Track.no_update_without_service s)
    (hwf : Event.init_before_connect inited evs = true) :
    ∃ s1, Track.dispatch_forever s evs = some s1 ∧ Track.no_update_without_service s1 := by
  induction evs generalizing inited s with
  | nil => exact ⟨s, rfl, hk⟩
  | cons e es ih =>
    obtain ⟨s1, hrun, hi1, hk1, hwf1⟩ := Track.dispatch_invariant inited s e es hi hk hwf
    obtain ⟨s2, hrun2, hk2⟩ := ih _ s1 hi1 hk1 hwf1
    exact ⟨s2, by simp [Track.dispatch_forever, hrun, hrun2], hk2⟩

theorem Event.init_before_connect_prefix (p q : List Event) (inited : Bool)
    (h : Event.init_before_connect inited (p ++ q) = true) :
    Event.init_before_connect inited p = true := by
  induction p generalizing inited with
  | nil => rfl
  | cons e es ih =>
    cases e with
    | init_complete error gap =>
      simp only [List.cons_append, Event.init_before_connect] at h ⊢
      exact ih _ h
    | link e =>
      cases e with
      | connection_complete status =>
        simp only [List.cons_append, Event.init_before_connect, Bool.and_eq_true] at h ⊢
        exact ⟨h.1, ih _ h.2⟩
      | disconnection_complete r =>
        simp only [List.cons_append, Event.init_before_connect] at h ⊢
        exact ih _ h
    | timer id readRaw_result read_result =>
      simp only [List.cons_append, Event.init_before_connect] at h ⊢
      exact ih _ h

/-- C10: from any state in which `update_sensor_value` is not yet registered (the state the
constructor and `start` leave), for every event sequence in which connection-complete
events occur only after `on_init_complete` has run with `BLE_ERROR_NONE`: the event loop
never makes the call through a NULL service pointer (every dispatch returns), the pointer
is non-NULL whenever an event invokes `update_sensor_value`, and no dispatch turns a
non-NULL pointer into NULL. -/
theorem Track.service_set_at_every_update (s : Track × World ℚ) (evs : List Event)
    (h0 : s.2.event_queue.scheduled .update_sensor_value = [])
    (hwf : Event.init_before_connect false evs = true) :
    (∃ s1, Track.dispatch_forever s evs = some s1) ∧
    (∀ (p rest : List Event) (e : Event) (s1 : Track × World ℚ), evs = p ++ e :: rest →
      Track.dispatch_forever s p = some s1 → Track.invokes_update s1 e = true →
      s1.1._thermometer_service ≠ none) ∧
    (∀ (s1 s2 : Track × World ℚ) (e : Event), s1.1._thermometer_service ≠ none →
      Track.dispatch s1 e = some s2 → s2.1._thermometer_service ≠ none) := by
  have hk : Track.no_update_without_service s := by
    intro _ task hmem hcb
    simp only [EventQueue.scheduled, List.filter_eq_nil_iff, decide_eq_true_eq] at h0
    exact h0 task hmem hcb
  have hi : false = true → s.1._thermometer_service ≠ none := by
    intro h
    exact absurd h (by decide)
  refine ⟨?_, ?_, ?_⟩
  · obtain ⟨s1, hrun, _⟩ := Track.dispatch_forever_invariant evs false s hi hk hwf
    exact ⟨s1, hrun⟩
  · intro p rest e s1 hsplit hrun hinv
    subst hsplit
    have hp := Event.init_before_connect_prefix p (e :: rest) false hwf
    obtain ⟨s2, hrun2, hk2⟩ := Track.dispatch_forever_invariant p false s hi hk hp
    rw [hrun] at hrun2
    cases hrun2
    cases e with
    | init_complete error gap => simp [Track.invokes_update] at hinv
    | link e => simp [Track.invokes_update] at hinv
    | timer id readRaw_result read_result =>
      simp only [Track.invokes_update] at hinv
      cases hl : s1.2.event_queue.lookup id with
      | none => simp [hl] at hinv
      | some task =>
        simp only [hl, decide_eq_true_eq] at hinv
        intro hnone
        exact hk2 hnone task (List.mem_of_find?_eq_some hl) hinv
  · intro s1 s2 e hs h
    exact Track.dispatch_keeps_service s1 s2 e hs h

/-- Witness of C10: after `start`, a successful initialisation, a connection, two expiries
of the publisher registration (handle 2; handle 1 is the blink task) and a disconnection. -/
theorem Track.service_set_at_every_update_witness :
    ∃ s1, Track.dispatch_forever
      ((Track.start 0 (Track.new, ⟨0, 1⟩, World.boot ℚ)).1,
        (Track.start 0 (Track.new, ⟨0, 1⟩, World.boot ℚ)).2.2)
      [.init_complete 0 ⟨0, 0, 0⟩, .link (.connection_complete 0), .timer 2 2000 (-3),
        .timer 1 0 0, .timer 2 10 5, .link (.disconnection_complete 0)] = some s1 :=
  (Track.service_set_at_every_update
    ((Track.start 0 (Track.new, ⟨0, 1⟩, World.boot ℚ)).1,
      (Track.start 0 (Track.new, ⟨0, 1⟩, World.boot ℚ)).2.2)
    [.init_complete 0 ⟨0, 0, 0⟩, .link (.connection_complete 0), .timer 2 2000 (-3),
      .timer 1 0 0, .timer 2 10 5, .link (.disconnection_complete 0)]
    (by decide) (by decide)).1

/-- The hypothesis of C10 is needed: a connection before the initialisation completes lets
the publisher task run through the NULL pointer the constructor installs. -/
theorem Track.update_before_init_faults :
    Track.dispatch_forever (Track.new, World.boot ℚ)
      [.link (.connection_complete 0), .timer 1 2000 (-3)] = none := by
  simp [Track.dispatch_forever, Track.dispatch, Track.on_link_event, Track.onConnectionComplete,
    Track.update_sensor_value, World.call_every, EventQueue.call_every, EventQueue.lookup,
    World.emit, World.boot, EventQueue.empty, Track.new, BLE_ERROR_NONE]

end TrackSafe
